import Mathlib

/-!
Verification development for the request-admission pipeline of the
golang-carflow-api repository.  The definitions below are shallow
embeddings of the Go source files:

  * internal/middleware/ratelimit.go   — IP-keyed token-bucket limiter
  * internal/middleware/recovery.go    — panic recovery, tenant-keyed limiter
  * internal/middleware/etag.go        — auth middleware (JWT extraction)
  * internal/auth/jwt.go               — token service (access/refresh tokens)
  * internal/auth/middleware.go        — handler-level auth middleware
  * middleware/tenant context          — SET/RESET of app.tenant_id
  * cmd/main.go                        — the composed middleware chain

Go machine integers are modelled as Int (tokens, burst, rate), float64
durations and rates as Rat, and fallible operations as Except/Option.
-/

namespace CarFlow

/-! ## Token bucket (internal/middleware/ratelimit.go)

The Go struct is

  type RateLimiter struct \x7b clients map[string]*client; rate int; burst int ... \x7d
  type client struct \x7b tokens int; lastUpdate time.Time \x7d

We model a single client's token state as an Int (absent client as none)
and a call to Allow as a step taking the elapsed wall-clock seconds
(a Rat, from time.Duration.Seconds()) since the previous call. -/

/-- Go conversion int(x) from a float64: truncation toward zero. -/
def truncToInt (q : ℚ) : ℤ := if 0 ≤ q then ⌊q⌋ else -⌊-q⌋

/-- Static configuration of the token-bucket limiter: requests per second
and maximum burst size (both Go int). -/
structure RateLimiterCfg where
  rate : ℤ
  burst : ℤ
  deriving DecidableEq, Repr

/-- The refill block of Allow (ratelimit.go lines 55-67): add
newTokens = int(elapsed.Seconds() * float64(rl.rate)) when positive,
capping at burst. -/
def refillTokens (cfg : RateLimiterCfg) (tokens : ℤ) (elapsed : ℚ) : ℤ :=
  let newTokens := truncToInt (elapsed * (cfg.rate : ℚ))
  if 0 < newTokens then
    if cfg.burst < tokens + newTokens then cfg.burst else tokens + newTokens
  else tokens

/-- Allow for an existing client: refill, then consume a token when
positive (ratelimit.go lines 54-76).  Returns (allowed, new token count). -/
def allowKnown (cfg : RateLimiterCfg) (tokens : ℤ) (elapsed : ℚ) : Bool × ℤ :=
  let t := refillTokens cfg tokens elapsed
  if 0 < t then (true, t - 1) else (false, t)

/-- Allow for a first-seen client: the client is created with
tokens = burst, then a token is consumed when positive
(ratelimit.go lines 47-53 and 70-76). -/
def allowNew (cfg : RateLimiterCfg) : Bool × ℤ :=
  if 0 < cfg.burst then (true, cfg.burst - 1) else (false, cfg.burst)

/-- One Allow call on a client state (none = client not yet present). -/
def allowStep (cfg : RateLimiterCfg) : Option ℤ → ℚ → Bool × ℤ
  | none, _ => allowNew cfg
  | some t, e => allowKnown cfg t e

/-- Run a sequence of Allow calls; each list entry is the elapsed time
since the previous call. -/
def runAllow (cfg : RateLimiterCfg) : Option ℤ → List ℚ → Option ℤ
  | s, [] => s
  | s, e :: es => runAllow cfg (some (allowStep cfg s e).2) es

/-! ## Tenant-keyed limiter provisioning
(internal/middleware/recovery.go, getLimiter, lines 56-86)

  rps := float64(t.Limits.APIRateLimit) / 60.0
  limiter = rate.NewLimiter(rate.Limit(rps), int(rps))
-/

/-- A provisioned tenant limiter: refill rate (tokens/second) and burst. -/
structure Limiter where
  limit : ℚ
  burst : ℤ
  deriving DecidableEq, Repr

/-- The limiter built by getLimiter from a tenant's APIRateLimit budget
(requests per minute). -/
def newTenantLimiter (apiRateLimit : ℕ) : Limiter :=
  let rps : ℚ := (apiRateLimit : ℚ) / 60
  { limit := rps, burst := truncToInt rps }

end CarFlow

namespace CarFlow

/-! ## Helper lemmas about the token bucket -/

lemma truncToInt_nonneg {q : ℚ} (hq : 0 ≤ q) : 0 ≤ truncToInt q := by
  unfold truncToInt
  simp [hq]
  exact Int.floor_nonneg.mpr hq

lemma truncToInt_eq_floor {q : ℚ} (hq : 0 ≤ q) : truncToInt q = ⌊q⌋ := by
  unfold truncToInt
  simp [hq]

/-- The refill block never lowers the token count and never raises it past
the burst capacity. -/
lemma refillTokens_bounds (cfg : RateLimiterCfg) (hr : 0 ≤ cfg.rate)
    (hb : 0 ≤ cfg.burst) {t : ℤ} (ht0 : 0 ≤ t) (htb : t ≤ cfg.burst)
    {e : ℚ} (he : 0 ≤ e) :
    t ≤ refillTokens cfg t e ∧ refillTokens cfg t e ≤ cfg.burst := by
  unfold refillTokens
  have hprod : (0:ℚ) ≤ e * (cfg.rate : ℚ) := by
    apply mul_nonneg he
    exact_mod_cast hr
  have hn : 0 ≤ truncToInt (e * (cfg.rate : ℚ)) := truncToInt_nonneg hprod
  dsimp only
  split
  · split <;> omega
  · omega

/-- State invariant for one bucket: if the client exists its token count
lies in the interval from zero to burst. -/
def bucketInv (cfg : RateLimiterCfg) : Option ℤ → Prop
  | none => True
  | some t => 0 ≤ t ∧ t ≤ cfg.burst

lemma allowStep_preserves (cfg : RateLimiterCfg) (hr : 0 ≤ cfg.rate)
    (hb : 0 ≤ cfg.burst) (s : Option ℤ) (hs : bucketInv cfg s)
    {e : ℚ} (he : 0 ≤ e) : bucketInv cfg (some (allowStep cfg s e).2) := by
  cases s with
  | none =>
      simp only [allowStep, allowNew, bucketInv]
      split <;> simp <;> omega
  | some t =>
      obtain ⟨ht0, htb⟩ := hs
      have href := refillTokens_bounds cfg hr hb ht0 htb he
      simp only [allowStep, allowKnown, bucketInv]
      split <;> constructor <;> omega

lemma runAllow_inv (cfg : RateLimiterCfg) (hr : 0 ≤ cfg.rate)
    (hb : 0 ≤ cfg.burst) (es : List ℚ) (he : ∀ e ∈ es, 0 ≤ e) :
    ∀ s : Option ℤ, bucketInv cfg s → bucketInv cfg (runAllow cfg s es) := by
  induction es with
  | nil => intro s hs; simpa [runAllow] using hs
  | cons e es ih =>
      intro s hs
      have he0 : 0 ≤ e := he e (List.mem_cons_self e es)
      have he' : ∀ x ∈ es, 0 ≤ x := fun x hx => he x (List.mem_cons_of_mem e hx)
      have step := allowStep_preserves cfg hr hb s hs he0
      simpa [runAllow] using ih he' _ step

/-- C4 (confirmed): along every sequence of Allow calls with nonnegative
elapsed times, the client's token count stays between 0 and the burst
capacity; a refill never lowers the count nor raises it above burst, and a
denied call leaves the count unchanged at a nonnegative value. -/
theorem allow_token_count_bounded (cfg : RateLimiterCfg)
    (hr : 0 ≤ cfg.rate) (hb : 0 ≤ cfg.burst) :
    (∀ es : List ℚ, (∀ e ∈ es, 0 ≤ e) → ∀ t : ℤ,
        runAllow cfg none es = some t → 0 ≤ t ∧ t ≤ cfg.burst) ∧
    (∀ (t : ℤ) (e : ℚ), 0 ≤ t → t ≤ cfg.burst → 0 ≤ e →
        t ≤ refillTokens cfg t e ∧ refillTokens cfg t e ≤ cfg.burst) ∧
    (∀ (t : ℤ) (e : ℚ), 0 ≤ t → t ≤ cfg.burst → 0 ≤ e →
        (allowKnown cfg t e).1 = false →
        (allowKnown cfg t e).2 = refillTokens cfg t e ∧
          0 ≤ (allowKnown cfg t e).2) := by
  refine ⟨?_, ?_, ?_⟩
  · intro es he t ht
    have := runAllow_inv cfg hr hb es he none trivial
    rw [ht] at this
    exact this
  · intro t e ht0 htb he
    exact refillTokens_bounds cfg hr hb ht0 htb he
  · intro t e ht0 htb he hfalse
    have href := refillTokens_bounds cfg hr hb ht0 htb he
    have hpos : ¬ 0 < refillTokens cfg t e := by
      intro hp
      unfold allowKnown at hfalse
      simp [hp] at hfalse
    have h2 : allowKnown cfg t e = (false, refillTokens cfg t e) := by
      unfold allowKnown
      simp [hpos]
    rw [h2]
    exact ⟨rfl, by omega⟩

/-- C4 witness: the bounds theorem applied to the concrete limiter
rate = 2, burst = 2 and the call sequence with elapsed times 0, 0, 1. -/
theorem allow_token_count_bounded_witness :
    (0:ℤ) ≤ (2:ℤ) ∧ (0:ℤ) ≤ (2:ℤ) ∧
    (∀ t : ℤ, runAllow ⟨2, 2⟩ none [0, 0, 1] = some t →
        0 ≤ t ∧ t ≤ (2:ℤ)) := by
  refine ⟨by omega, by omega, ?_⟩
  intro t ht
  exact (allow_token_count_bounded ⟨2, 2⟩ (by decide) (by decide)).1
    [0, 0, 1] (by intro e he; fin_cases he <;> norm_num) t ht

end CarFlow

namespace CarFlow

/-- C3 counterexample: getLimiter converts the per-second rate to a burst
with Go int() truncation, not with a ceiling.  For budget 90 the code
builds burst 1 while the ceiling of 90/60 is 2, and for the positive
budget 30 the code builds burst 0, not at least 1. -/
theorem tenantLimiter_burst_not_ceil :
    (newTenantLimiter 90).burst = 1 ∧ (⌈(90:ℚ)/60⌉ : ℤ) = 2 ∧
    (newTenantLimiter 30).burst = 0 := by
  refine ⟨?_, ?_, ?_⟩
  · show truncToInt ((90:ℚ)/60) = 1
    rw [truncToInt_eq_floor (by norm_num)]
    norm_num
  · rw [Int.ceil_eq_iff] <;> norm_num
  · show truncToInt ((30:ℚ)/60) = 0
    rw [truncToInt_eq_floor (by norm_num)]
    norm_num

/-- C3 amended: the bucket created on a tenant's first acquire has refill
rate B/60 tokens per second and burst capacity floor(B/60) (Go int()
truncation), so the capacity is at least 1 exactly when B is at least 60. -/
theorem tenantLimiter_rate_and_burst (B : ℕ) :
    (newTenantLimiter B).limit = (B : ℚ) / 60 ∧
    (newTenantLimiter B).burst = ((B / 60 : ℕ) : ℤ) ∧
    (1 ≤ (newTenantLimiter B).burst ↔ 60 ≤ B) := by
  have hfloor : (newTenantLimiter B).burst = ((B / 60 : ℕ) : ℤ) := by
    show truncToInt ((B:ℚ)/60) = ((B / 60 : ℕ) : ℤ)
    rw [truncToInt_eq_floor (by positivity)]
    have h := Rat.floor_natCast_div_natCast B 60
    rw [show (((60:ℕ)):ℚ) = (60:ℚ) by norm_num] at h
    rw [h]
    exact (Int.ofNat_div B 60).symm
  refine ⟨rfl, hfloor, ?_⟩
  rw [hfloor]
  have h60 : (0:ℕ) < 60 := by norm_num
  constructor
  · intro h1
    have : 1 ≤ B / 60 := by exact_mod_cast h1
    exact (Nat.one_le_div_iff h60).mp this
  · intro h60B
    have : 1 ≤ B / 60 := (Nat.one_le_div_iff h60).mpr h60B
    exact_mod_cast this

lemma allowKnown_fst_of_refill_pos (cfg : RateLimiterCfg) {t : ℤ} {e : ℚ}
    (h : 0 < refillTokens cfg t e) : (allowKnown cfg t e).1 = true := by
  unfold allowKnown
  simp [h]

lemma refillTokens_pos (cfg : RateLimiterCfg) {t : ℤ} {e : ℚ}
    (h0 : 0 ≤ t) (hb : 0 < cfg.burst)
    (hn : 0 < truncToInt (e * (cfg.rate : ℚ))) : 0 < refillTokens cfg t e := by
  unfold refillTokens
  dsimp only
  split
  · split <;> omega
  · omega

/-- C5 (confirmed): a tenant budget of 120 requests per minute provisions
the limiter with rate 2/sec and burst 2; with that bucket, two immediate
acquisitions succeed (tokens 2 -> 1 -> 0), a third immediate acquisition
is denied, and after at least one second of elapsed time an acquisition
succeeds again. -/
theorem burstTwo_rateTwo_scenario (e : ℚ) (he : 1 ≤ e) :
    newTenantLimiter 120 = { limit := 2, burst := 2 } ∧
    allowStep ⟨2, 2⟩ none 0 = (true, 1) ∧
    allowStep ⟨2, 2⟩ (some 1) 0 = (true, 0) ∧
    allowStep ⟨2, 2⟩ (some 0) 0 = (false, 0) ∧
    (allowStep ⟨2, 2⟩ (some 0) e).1 = true := by
  refine ⟨?_, ?_, ?_, ?_, ?_⟩
  · show Limiter.mk (((120:ℕ):ℚ)/60) (truncToInt (((120:ℕ):ℚ)/60)) =
        Limiter.mk 2 2
    have h1 : ((120:ℕ) : ℚ) / 60 = 2 := by norm_num
    rw [h1, truncToInt_eq_floor (by norm_num)]
    norm_num [Limiter.mk.injEq]
  · show allowNew ⟨2, 2⟩ = (true, 1)
    unfold allowNew
    norm_num
  · show allowKnown ⟨2, 2⟩ 1 0 = (true, 0)
    unfold allowKnown refillTokens truncToInt
    norm_num
  · show allowKnown ⟨2, 2⟩ 0 0 = (false, 0)
    unfold allowKnown refillTokens truncToInt
    norm_num
  · show (allowKnown ⟨2, 2⟩ 0 e).1 = true
    apply allowKnown_fst_of_refill_pos
    apply refillTokens_pos ⟨2, 2⟩ le_rfl (by norm_num)
    show 0 < truncToInt (e * (((2:ℤ)) : ℚ))
    rw [truncToInt_eq_floor (by push_cast; linarith)]
    have : (1:ℚ) ≤ e * ((2:ℤ) : ℚ) := by push_cast; linarith
    have := Int.le_floor.mpr (by exact_mod_cast this : ((1:ℤ):ℚ) ≤ e * ((2:ℤ) : ℚ))
    omega

/-- C5 witness: the scenario theorem applied at elapsed time exactly one
second. -/
theorem burstTwo_rateTwo_scenario_witness :
    (1:ℚ) ≤ 1 ∧
    (newTenantLimiter 120 = { limit := 2, burst := 2 } ∧
     allowStep ⟨2, 2⟩ none 0 = (true, 1) ∧
     allowStep ⟨2, 2⟩ (some 1) 0 = (true, 0) ∧
     allowStep ⟨2, 2⟩ (some 0) 0 = (false, 0) ∧
     (allowStep ⟨2, 2⟩ (some 0) 1).1 = true) :=
  ⟨le_refl 1, burstTwo_rateTwo_scenario 1 (le_refl 1)⟩

end CarFlow

namespace CarFlow

/-! ## Token service (internal/auth/jwt.go)

Tokens are signed JWTs.  We embed a signed token as the data the verifier
can observe: its claims, the secret it was signed with, whether the
signing method is the expected HMAC scheme, and its expiry instant.
jwt.ParseWithClaims fails when the signing method is not HMAC, when the
signature does not verify under the supplied secret, or when the token is
outside its validity window; these all surface as a parse error before
the explicit type-tag check in validateToken runs. -/

/-- The two token kinds (jwt.go lines 15-20). -/
inductive TokenType
  | access
  | refresh
  deriving DecidableEq, Repr

/-- Custom claims carried by every token (jwt.go lines 22-30). -/
structure TokenClaims where
  userID : String
  email : String
  role : String
  tenantID : String
  type : TokenType
  deriving DecidableEq, Repr

/-- A signed token as observable by the verifier. -/
structure SignedToken where
  claims : TokenClaims
  signedWith : String
  hmacSigned : Bool
  expiresAt : ℕ
  deriving DecidableEq, Repr

/-- The token service configuration (jwt.go lines 32-38). -/
structure TokenService where
  accessSecret : String
  refreshSecret : String
  accessExpiry : ℕ
  refreshExpiry : ℕ
  deriving DecidableEq, Repr

/-- A user record, as far as token generation consumes it. -/
structure AuthUser where
  id : String
  email : String
  role : String
  tenantID : String
  deriving DecidableEq, Repr

/-- Validation errors of the token service. -/
inductive JwtError
  | parseError
  | invalidTokenType
  | invalidToken
  deriving DecidableEq, Repr

/-- generateToken (jwt.go lines 76-103): claims carry the user fields and
the requested kind; the token is HMAC-signed with the supplied secret. -/
def generateToken (user : AuthUser) (tokenType : TokenType) (secret : String)
    (now expiry : ℕ) : SignedToken :=
  { claims := { userID := user.id, email := user.email, role := user.role,
                tenantID := user.tenantID, type := tokenType }
    signedWith := secret
    hmacSigned := true
    expiresAt := now + expiry }

/-- GenerateAccessToken (jwt.go lines 66-69). -/
def generateAccessToken (s : TokenService) (user : AuthUser) (now : ℕ) :
    SignedToken :=
  generateToken user TokenType.access s.accessSecret now s.accessExpiry

/-- GenerateRefreshToken (jwt.go lines 71-74). -/
def generateRefreshToken (s : TokenService) (user : AuthUser) (now : ℕ) :
    SignedToken :=
  generateToken user TokenType.refresh s.refreshSecret now s.refreshExpiry

/-- validateToken (jwt.go lines 115-138): parse (HMAC method check,
signature check under the supplied secret, expiry check), then reject a
mismatched type tag. -/
def validateToken (tok : SignedToken) (secret : String)
    (tokenType : TokenType) (now : ℕ) : Except JwtError TokenClaims :=
  if ¬ tok.hmacSigned then .error .parseError
  else if tok.signedWith ≠ secret then .error .parseError
  else if tok.expiresAt < now then .error .parseError
  else if tok.claims.type ≠ tokenType then .error .invalidTokenType
  else .ok tok.claims

/-- ValidateAccessToken (jwt.go lines 105-108). -/
def validateAccessToken (s : TokenService) (tok : SignedToken) (now : ℕ) :
    Except JwtError TokenClaims :=
  validateToken tok s.accessSecret TokenType.access now

/-- ValidateRefreshToken (jwt.go lines 110-113). -/
def validateRefreshToken (s : TokenService) (tok : SignedToken) (now : ℕ) :
    Except JwtError TokenClaims :=
  validateToken tok s.refreshSecret TokenType.refresh now

/-- RefreshAccessToken (jwt.go lines 140-157): validate as a refresh
token, then mint a fresh access token from the embedded claims. -/
def refreshAccessToken (s : TokenService) (tok : SignedToken) (now : ℕ) :
    Except JwtError SignedToken :=
  match validateRefreshToken s tok now with
  | .error e => .error e
  | .ok claims =>
      .ok (generateAccessToken s
        { id := claims.userID, email := claims.email, role := claims.role,
          tenantID := claims.tenantID } now)

/-- C6 (confirmed): credential kind separation.  A token issued with one
kind is rejected by validation against the other kind — it either fails
the signature check (distinct secrets) or the explicit kind-tag check
(identical secrets) — and the refresh path rejects access tokens. -/
theorem token_kind_separation (s : TokenService) (user : AuthUser)
    (nowIssue nowCheck : ℕ) :
    (validateRefreshToken s (generateAccessToken s user nowIssue)
        nowCheck).isOk = false ∧
    (validateAccessToken s (generateRefreshToken s user nowIssue)
        nowCheck).isOk = false ∧
    (refreshAccessToken s (generateAccessToken s user nowIssue)
        nowCheck).isOk = false := by
  have hacc : (validateRefreshToken s (generateAccessToken s user nowIssue)
      nowCheck).isOk = false := by
    unfold validateRefreshToken validateToken generateAccessToken generateToken
    by_cases hsec : s.accessSecret = s.refreshSecret
    · by_cases hexp : nowIssue + s.accessExpiry < nowCheck
      · simp [hsec, hexp, Except.isOk, Except.toBool]
      · simp [hsec, hexp, Except.isOk, Except.toBool]
    · simp [hsec, Except.isOk, Except.toBool]
  refine ⟨hacc, ?_, ?_⟩
  · unfold validateAccessToken validateToken generateRefreshToken generateToken
    by_cases hsec : s.refreshSecret = s.accessSecret
    · by_cases hexp : nowIssue + s.refreshExpiry < nowCheck
      · simp [hsec, hexp, Except.isOk, Except.toBool]
      · simp [hsec, hexp, Except.isOk, Except.toBool]
    · simp [hsec, Except.isOk, Except.toBool]
  · unfold refreshAccessToken
    revert hacc
    cases hval : validateRefreshToken s (generateAccessToken s user nowIssue)
        nowCheck with
    | error e => intro _; simp [Except.isOk, Except.toBool]
    | ok c => intro hacc; simp [Except.isOk, Except.toBool] at hacc

end CarFlow

namespace CarFlow

/-! ## Auth middleware (internal/middleware/etag.go, lines 111-144)

The middleware reads the Authorization header (Header.Get returns the
empty string when the header is absent), splits it on spaces, requires
exactly two parts with first part Bearer, then validates the token string
as an access token.  The decode parameter stands for jwt parsing of the
token string into the signed-token data the verifier observes; a string
that is not a well-formed serialized token decodes to none and fails
validation. -/

/-- An observable HTTP response: status code and body text. -/
structure HttpResponse where
  status : ℕ
  body : String
  deriving DecidableEq, Repr

/-- Splitting a character list at every occurrence of the separator,
the semantics of Go strings.Split with a single-character separator. -/
def splitChars (sep : Char) : List Char → List (List Char)
  | [] => [[]]
  | c :: cs =>
      let rest := splitChars sep cs
      if c = sep then [] :: rest
      else
        match rest with
        | [] => [[c]]
        | r :: rs => (c :: r) :: rs

/-- Go strings.Split(s, " "). -/
def splitOnSpace (s : String) : List String :=
  (splitChars ' ' s.data).map (fun cs => String.mk cs)

/-- The middleware up to its short-circuit decision: either an error
response (the request never reaches the next handler) or the validated
claims attached to the context for the next handler. -/
def authResult (s : TokenService) (decode : String → Option SignedToken)
    (now : ℕ) (authHeader : String) : Except HttpResponse TokenClaims :=
  if authHeader = "" then
    .error ⟨401, "Unauthorized: Authorization header required"⟩
  else
    match splitOnSpace authHeader with
    | [w0, w1] =>
        if w0 = "Bearer" then
          match decode w1 with
          | none => .error ⟨401, "Unauthorized: Invalid or expired token"⟩
          | some tok =>
              match validateAccessToken s tok now with
              | .error _ =>
                  .error ⟨401, "Unauthorized: Invalid or expired token"⟩
              | .ok claims => .ok claims
        else .error ⟨401, "Unauthorized: Invalid authorization format"⟩
    | _ => .error ⟨401, "Unauthorized: Invalid authorization format"⟩

/-- AuthMiddleware.Middleware assembled: short-circuit with the error
response, or run the downstream handler on the claims. -/
def authMiddleware (s : TokenService) (decode : String → Option SignedToken)
    (now : ℕ) (authHeader : String) (next : TokenClaims → HttpResponse) :
    HttpResponse :=
  match authResult s decode now authHeader with
  | .error r => r
  | .ok claims => next claims

/-- C7 counterexample: two authentication failures with different causes
produce different observable bodies.  A missing Authorization header and
a malformed bearer prefix both yield status 401, but with distinct error
bodies, so the failure causes are distinguishable. -/
theorem auth_failure_bodies_differ :
    (authMiddleware ⟨"a", "r", 900, 604800⟩ (fun _ => none) 0 ""
        (fun _ => ⟨200, "ok"⟩)).status = 401 ∧
    (authMiddleware ⟨"a", "r", 900, 604800⟩ (fun _ => none) 0 "Token abc"
        (fun _ => ⟨200, "ok"⟩)).status = 401 ∧
    (authMiddleware ⟨"a", "r", 900, 604800⟩ (fun _ => none) 0 ""
        (fun _ => ⟨200, "ok"⟩)).body ≠
      (authMiddleware ⟨"a", "r", 900, 604800⟩ (fun _ => none) 0 "Token abc"
        (fun _ => ⟨200, "ok"⟩)).body := by
  refine ⟨rfl, rfl, ?_⟩
  decide

/-- C7 amended: every authentication failure is answered with status 401,
and all failures inside token validation (expired, bad signature, wrong
kind tag) share one identical response; but the missing-header and
malformed-format failures carry distinct bodies, so only the
validation-level causes are indistinguishable. -/
theorem auth_failure_status_uniform (s : TokenService)
    (decode : String → Option SignedToken) (now : ℕ) (authHeader : String) :
    (∀ r : HttpResponse, authResult s decode now authHeader = .error r →
        r.status = 401) ∧
    (∀ tok tok' : SignedToken,
        (validateAccessToken s tok now).isOk = false →
        (validateAccessToken s tok' now).isOk = false →
        authResult s (fun _ => some tok) now "Bearer t" =
          authResult s (fun _ => some tok') now "Bearer t") := by
  constructor
  · intro r hr
    unfold authResult at hr
    split at hr
    · injection hr with h
      subst h
      rfl
    · split at hr
      · split at hr
        · split at hr
          · injection hr with h
            subst h
            rfl
          · split at hr
            · injection hr with h
              subst h
              rfl
            · simp at hr
        · injection hr with h
          subst h
          rfl
      · injection hr with h
        subst h
        rfl
  · intro tok tok' h1 h2
    have herr : ∀ u : SignedToken, (validateAccessToken s u now).isOk = false →
        authResult s (fun _ => some u) now "Bearer t" =
          .error ⟨401, "Unauthorized: Invalid or expired token"⟩ := by
      intro u hu
      obtain ⟨e, he⟩ : ∃ e, validateAccessToken s u now = .error e := by
        cases hv : validateAccessToken s u now with
        | error e => exact ⟨e, rfl⟩
        | ok c =>
            rw [hv] at hu
            simp [Except.isOk, Except.toBool] at hu
      unfold authResult
      rw [if_neg (by decide)]
      rw [show (splitOnSpace "Bearer t") = ["Bearer", "t"] by decide]
      dsimp only
      rw [if_pos rfl, he]
    rw [herr tok h1, herr tok' h2]

end CarFlow

namespace CarFlow

/-- C7 witness: the amended theorem applied at a concrete missing-header
request and at two concrete validation failures with different causes
(expired token versus wrong-secret signature). -/
theorem auth_failure_status_uniform_witness :
    (validateAccessToken ⟨"a", "r", 900, 604800⟩
        ⟨⟨"u", "e", "user", "t1", .access⟩, "a", true, 0⟩ 5).isOk = false ∧
    (validateAccessToken ⟨"a", "r", 900, 604800⟩
        ⟨⟨"u", "e", "user", "t1", .access⟩, "x", true, 99⟩ 5).isOk = false ∧
    authResult ⟨"a", "r", 900, 604800⟩
        (fun _ => some ⟨⟨"u", "e", "user", "t1", .access⟩, "a", true, 0⟩)
        5 "Bearer t" =
      authResult ⟨"a", "r", 900, 604800⟩
        (fun _ => some ⟨⟨"u", "e", "user", "t1", .access⟩, "x", true, 99⟩)
        5 "Bearer t" :=
  ⟨by decide, by decide,
   (auth_failure_status_uniform ⟨"a", "r", 900, 604800⟩ (fun _ => none) 5
     "").2 _ _ (by decide) (by decide)⟩

/-! ## Tenant context middleware (SET/RESET of app.tenant_id)

Embeds TenantContextMiddleware.Middleware: read the tenant id from the
request context (set by the auth middleware); with no tenant id answer
401; otherwise execute SET app.tenant_id, register the RESET cleanup with
defer, run the downstream handler, and let the deferred cleanup run on
every exit path — normal return, error response, or panic. -/

/-- A tenant-binding command issued on the database session. -/
inductive DbCmd
  | setTenant (tid : String)
  | resetTenant
  deriving DecidableEq, Repr

/-- The database session state: the active tenant binding and the list of
binding commands issued so far. -/
structure DbState where
  binding : Option String
  cmds : List DbCmd
  deriving DecidableEq, Repr

/-- Execute SET app.tenant_id = tid; on failure the binding is unchanged
but the command was still issued. -/
def execSet (tid : String) (ok : Bool) (s : DbState) : DbState :=
  { binding := if ok then some tid else s.binding,
    cmds := s.cmds ++ [DbCmd.setTenant tid] }

/-- Execute RESET app.tenant_id: the binding returns to its session
default (absent). -/
def execReset (s : DbState) : DbState :=
  { binding := none, cmds := s.cmds ++ [DbCmd.resetTenant] }

/-- How a downstream handler exits: with a response (normal or error) or
by panicking. -/
inductive HandlerOutcome
  | normal (resp : HttpResponse)
  | panicked (msg : String)
  deriving DecidableEq, Repr

/-- What the middleware execution produces: a written response, or a
panic propagating out of it. -/
inductive MwOutcome
  | responded (resp : HttpResponse)
  | panicked (msg : String)
  deriving DecidableEq, Repr

/-- Go defer semantics for a cleanup that does not recover: the cleanup
runs after the body on every exit path, and a panic of the body then
continues to propagate. -/
def withDefer (body : DbState → DbState × MwOutcome)
    (cleanup : DbState → DbState) (s : DbState) : DbState × MwOutcome :=
  let r := body s
  (cleanup r.1, r.2)

/-- The downstream handler as the tenant-context middleware observes it:
it issues no tenant-binding session command of its own, and exits with
its outcome. -/
def runHandler (handler : HandlerOutcome) : DbState → DbState × MwOutcome :=
  fun s =>
    (s, match handler with
        | .normal resp => .responded resp
        | .panicked m => .panicked m)

/-- Result of one request through the tenant-context middleware. -/
structure TcmResult where
  db : DbState
  handlerInvoked : Bool
  outcome : MwOutcome
  deriving DecidableEq, Repr

/-- TenantContextMiddleware.Middleware: 401 when the context carries no
tenant id; 500 when SET fails (the cleanup is not yet registered there);
otherwise defer RESET, then run the handler. -/
def tenantContextMiddleware (tenantID : Option String) (setOk : Bool)
    (handler : HandlerOutcome) (db0 : DbState) : TcmResult :=
  match tenantID with
  | none =>
      { db := db0, handlerInvoked := false,
        outcome := .responded ⟨401, "Unauthorized: Tenant ID not found"⟩ }
  | some tid =>
      let db1 := execSet tid setOk db0
      if setOk then
        let r := withDefer (runHandler handler) execReset db1
        { db := r.1, handlerInvoked := true, outcome := r.2 }
      else
        { db := db1, handlerInvoked := false,
          outcome := .responded ⟨500, "Internal Server Error"⟩ }

/-- C1 (confirmed): when a tenant id is bound by a successful SET, the
deferred RESET is issued exactly once after the handler, on every exit
path (normal response, error response, panic), the binding is absent
afterwards, and the handler's outcome (response or propagating panic) is
preserved. -/
theorem tenant_binding_always_cleared (db0 : DbState) (tid : String)
    (handler : HandlerOutcome) :
    (tenantContextMiddleware (some tid) true handler db0).db.cmds =
      db0.cmds ++ [DbCmd.setTenant tid, DbCmd.resetTenant] ∧
    (tenantContextMiddleware (some tid) true handler db0).db.binding =
      none ∧
    (tenantContextMiddleware (some tid) true handler db0).handlerInvoked =
      true ∧
    (tenantContextMiddleware (some tid) true handler db0).outcome =
      (match handler with
       | .normal resp => MwOutcome.responded resp
       | .panicked m => MwOutcome.panicked m) := by
  refine ⟨?_, rfl, rfl, rfl⟩
  show (db0.cmds ++ [DbCmd.setTenant tid]) ++ [DbCmd.resetTenant] =
    db0.cmds ++ [DbCmd.setTenant tid, DbCmd.resetTenant]
  simp

end CarFlow

namespace CarFlow

/-! ## Tenant-keyed rate-limit middleware and limiter registry
(internal/middleware/recovery.go, lines 40-114)

The registry maps tenant id to its provisioned limiter.  getLimiter
returns the existing limiter when present; otherwise it fetches the
tenant's budget from the tenant service and inserts a freshly provisioned
limiter, re-checking existence under the exclusive lock before inserting. -/

/-- The registry of per-tenant limiters (the limiters map). -/
structure Registry where
  entries : List (String × Limiter)
  deriving DecidableEq, Repr

/-- Map lookup by tenant id. -/
def lookupLimiter (reg : Registry) (tid : String) : Option Limiter :=
  (reg.entries.find? (fun p => p.1 = tid)).map Prod.snd

/-- getLimiter: fast path returns the present limiter unchanged; slow
path needs the tenant budget (none models a GetTenant error) and inserts
the provisioned limiter if the double check still finds none.  The budget
fetch happens outside the write lock; sequentially the re-check under the
lock coincides with the first check. -/
def getLimiter (reg : Registry) (budget : Option ℕ) (tid : String) :
    Registry × Except String Limiter :=
  match lookupLimiter reg tid with
  | some l => (reg, .ok l)
  | none =>
      match budget with
      | none => (reg, .error "failed to get tenant")
      | some b =>
          let l := newTenantLimiter b
          ({ entries := reg.entries ++ [(tid, l)] }, .ok l)

/-- RateLimiter.Middleware (recovery.go lines 89-114): 401 when the
context carries no tenant id, 500 when the tenant lookup fails, 429 when
the limiter denies, else the downstream handler runs.  allowResult stands
for limiter.Allow() of the external golang.org/x/time/rate limiter.
Returns (registry after, response, whether next ran). -/
def rateLimitTenantMiddleware (tenantID : Option String)
    (budget : Option ℕ) (allowResult : Bool) (reg : Registry)
    (next : HttpResponse) : Registry × HttpResponse × Bool :=
  match tenantID with
  | none => (reg, ⟨401, "Unauthorized: Tenant ID not found"⟩, false)
  | some tid =>
      match getLimiter reg budget tid with
      | (reg1, .error _) => (reg1, ⟨500, "Internal Server Error"⟩, false)
      | (reg1, .ok _) =>
          if allowResult then (reg1, next, true)
          else (reg1, ⟨429, "Rate limit exceeded"⟩, false)

/-- C10 (confirmed): a request whose context carries no tenant id is
answered 401 by the tenant-keyed rate-limit middleware without touching
the limiter registry and without running the downstream handler, and 401
by the tenant-context middleware without issuing any tenant-binding
database command and without running the downstream handler. -/
theorem missing_tenant_short_circuits (budget : Option ℕ)
    (allowResult : Bool) (reg : Registry) (next : HttpResponse)
    (db0 : DbState) (setOk : Bool) (handler : HandlerOutcome) :
    rateLimitTenantMiddleware none budget allowResult reg next =
      (reg, ⟨401, "Unauthorized: Tenant ID not found"⟩, false) ∧
    tenantContextMiddleware none setOk handler db0 =
      { db := db0, handlerInvoked := false,
        outcome := .responded ⟨401, "Unauthorized: Tenant ID not found"⟩ } :=
  ⟨rfl, rfl⟩

/-! ## Concurrent first acquires (double-checked creation)

Each of N concurrent goroutines calling getLimiter for the same
previously-unseen tenant either sees the limiter on its read-locked fast
path (possible only once some other goroutine has inserted it) or runs
the write-locked section, whose registry effect is the insert-if-absent
of getLimiter.  Write-locked sections are serialized by the mutex, so an
arbitrary interleaving is a sequence of these atomic events. -/

/-- One goroutine's registry-relevant event. -/
inductive RegEvent
  | readHit (tid : String)
  | critSection (tid : String) (budget : ℕ)
  deriving DecidableEq, Repr

/-- The tenant id an event concerns. -/
def eventTid : RegEvent → String
  | .readHit t => t
  | .critSection t _ => t

/-- Registry effect of one event: a read-locked hit leaves the registry
unchanged; the write-locked section is the registry effect of getLimiter
(insert if the double check still finds none). -/
def regStep (reg : Registry) : RegEvent → Registry
  | .readHit _ => reg
  | .critSection t b => (getLimiter reg (some b) t).1

/-- Folding an interleaving of events over the registry. -/
def regRun (reg : Registry) : List RegEvent → Registry
  | [] => reg
  | e :: es => regRun (regStep reg e) es

/-- An interleaving is well-formed when every read-locked hit happens at
a point where the limiter is actually present. -/
def wfEvents : Registry → List RegEvent → Bool
  | _, [] => true
  | reg, .readHit t :: es =>
      (lookupLimiter reg t).isSome && wfEvents (regStep reg (.readHit t)) es
  | reg, .critSection t b :: es =>
      wfEvents (regStep reg (.critSection t b)) es

/-- Number of registry entries for a tenant. -/
def countEntries (reg : Registry) (tid : String) : ℕ :=
  reg.entries.countP (fun p => p.1 = tid)

lemma lookupLimiter_isSome_iff (reg : Registry) (tid : String) :
    (lookupLimiter reg tid).isSome = true ↔ 0 < countEntries reg tid := by
  unfold lookupLimiter countEntries
  induction reg.entries with
  | nil => simp
  | cons p ps ih =>
      by_cases hp : p.1 = tid
      · simp [List.find?, List.countP_cons, hp]
      · simpa [List.find?, List.countP_cons, hp] using ih

lemma getLimiter_fst (reg : Registry) (b : ℕ) (t : String) :
    (getLimiter reg (some b) t).1 =
      (match lookupLimiter reg t with
       | some _ => reg
       | none => { entries := reg.entries ++ [(t, newTenantLimiter b)] }) := by
  unfold getLimiter
  cases lookupLimiter reg t <;> rfl

lemma countEntries_regStep_of_pos (reg : Registry) (e : RegEvent)
    (tid : String) (h : 0 < countEntries reg tid) :
    countEntries (regStep reg e) tid = countEntries reg tid := by
  cases e with
  | readHit t => rfl
  | critSection t b =>
      show countEntries (getLimiter reg (some b) t).1 tid = countEntries reg tid
      rw [getLimiter_fst]
      cases hl : lookupLimiter reg t with
      | some l => rfl
      | none =>
          by_cases ht : t = tid
          · subst ht
            have h2 := (lookupLimiter_isSome_iff reg t).mpr h
            rw [hl] at h2
            simp at h2
          · simp [countEntries, List.countP_append, List.countP_cons, ht]

lemma countEntries_regRun_of_pos (es : List RegEvent) (tid : String) :
    ∀ reg : Registry, 0 < countEntries reg tid →
      countEntries (regRun reg es) tid = countEntries reg tid := by
  induction es with
  | nil => intro reg h; rfl
  | cons e es ih =>
      intro reg h
      have hstep := countEntries_regStep_of_pos reg e tid h
      have : countEntries (regRun (regStep reg e) es) tid =
          countEntries (regStep reg e) tid := ih _ (by omega)
      simp [regRun]
      omega

/-- C9 (confirmed): from a registry with no bucket for the tenant, any
well-formed interleaving of at least one first-acquire event for that
tenant leaves exactly one bucket for it: the double check under the
exclusive lock makes every write section after the first insert a no-op,
and read hits never insert. -/
theorem single_bucket_per_tenant (reg0 : Registry) (tid : String)
    (events : List RegEvent)
    (h0 : countEntries reg0 tid = 0)
    (hne : events ≠ [])
    (htid : ∀ e ∈ events, eventTid e = tid)
    (hwf : wfEvents reg0 events = true) :
    countEntries (regRun reg0 events) tid = 1 := by
  cases events with
  | nil => exact absurd rfl hne
  | cons e es =>
      cases e with
      | readHit t =>
          have ht : t = tid := htid _ (List.mem_cons_self _ _)
          subst ht
          unfold wfEvents at hwf
          have hsome := (Bool.and_eq_true _ _).mp hwf
          have := (lookupLimiter_isSome_iff reg0 t).mp hsome.1
          omega
      | critSection t b =>
          have ht : t = tid := htid _ (List.mem_cons_self _ _)
          subst ht
          have hnone : lookupLimiter reg0 t = none := by
            cases hl : lookupLimiter reg0 t with
            | none => rfl
            | some l =>
                have : (lookupLimiter reg0 t).isSome = true := by
                  simp [hl]
                have := (lookupLimiter_isSome_iff reg0 t).mp this
                omega
          have hone : countEntries (regStep reg0 (.critSection t b)) t = 1 := by
            show countEntries (getLimiter reg0 (some b) t).1 t = 1
            rw [getLimiter_fst, hnone]
            unfold countEntries at h0 ⊢
            simp [List.countP_append, List.countP_cons, h0]
          have := countEntries_regRun_of_pos es t
            (regStep reg0 (.critSection t b)) (by omega)
          simp only [regRun]
          omega

/-- C9 witness: two serialized first acquires for one fresh tenant with
budget 120 leave exactly one bucket. -/
theorem single_bucket_per_tenant_witness :
    countEntries ⟨[]⟩ "t1" = 0 ∧
    ([RegEvent.critSection "t1" 120, RegEvent.critSection "t1" 120] ≠
      ([] : List RegEvent)) ∧
    (∀ e ∈ [RegEvent.critSection "t1" 120, RegEvent.critSection "t1" 120],
      eventTid e = "t1") ∧
    wfEvents ⟨[]⟩ [RegEvent.critSection "t1" 120,
      RegEvent.critSection "t1" 120] = true ∧
    countEntries (regRun ⟨[]⟩ [RegEvent.critSection "t1" 120,
      RegEvent.critSection "t1" 120]) "t1" = 1 := by
  refine ⟨by decide, by decide, by decide, by decide, ?_⟩
  exact single_bucket_per_tenant ⟨[]⟩ "t1" _ (by decide) (by decide)
    (by decide) (by decide)

end CarFlow

namespace CarFlow

/-! ## The composed middleware chain (cmd/main.go lines 69-82)

  handler := middleware.CORSMiddleware(
    middleware.RateLimitMiddleware(rateLimiter)(
      middleware.ETagMiddleware(
        metrics.Middleware(metricsTracker)(
          middleware.LoggingMiddleware(
            middleware.RecoveryMiddleware(mux))))))

recover() appears in no middleware other than RecoveryMiddleware, so a
panic passes through every other stage; identity extraction (the auth
middleware that sets TenantIDContextKey) is not composed into this chain
at all — for auth routes it runs inside route dispatch. -/

/-- The stages of the composed chain, plus route dispatch on the mux. -/
inductive Stage
  | cors
  | rateLimit
  | etagStage
  | metricsStage
  | logging
  | recovery
  | routeDispatch
  deriving DecidableEq, Repr

/-- The chain of cmd/main.go, outermost first; route dispatch innermost. -/
def mainChainStages : List Stage :=
  [Stage.cors, Stage.rateLimit, Stage.etagStage, Stage.metricsStage,
   Stage.logging, Stage.recovery, Stage.routeDispatch]

/-- Chain stages that consume the Principal's tenant id from the request
context: the tenant-keyed rate-limit middleware reads TenantIDContextKey
(recovery.go line 92). -/
def consumesTenantId : Stage → Bool
  | Stage.rateLimit => true
  | _ => false

/-- Chain stages that populate the tenant id in the request context:
none.  The auth middleware that sets TenantIDContextKey (etag.go lines
136-142) is not a stage of the composed chain; it runs, where at all,
inside per-route handlers after dispatch. -/
def populatesTenantId : Stage → Bool :=
  fun _ => false

/-- The ordering property a pipeline must satisfy: every stage that
consumes the tenant id is preceded by a stage that populates it. -/
def chainOrderedOK (stages : List Stage) : Prop :=
  ∀ i : Fin stages.length, consumesTenantId (stages.get i) = true →
    ∃ j : Fin stages.length, j.val < i.val ∧
      populatesTenantId (stages.get j) = true

/-- C2 (code defect): in the composed chain the rate-limiting stage runs
second, before any stage that validates a credential or populates the
tenant id — identity extraction happens only inside route dispatch — so
the ordering property fails; operationally, the tenant-keyed rate-limit
middleware run at that position sees a context without a tenant id and
answers 401 without any identity extraction having run. -/
theorem rateLimit_precedes_identity_extraction :
    ¬ chainOrderedOK mainChainStages ∧
    (∀ (budget : Option ℕ) (allowResult : Bool) (reg : Registry)
        (next : HttpResponse),
      rateLimitTenantMiddleware none budget allowResult reg next =
        (reg, ⟨401, "Unauthorized: Tenant ID not found"⟩, false)) := by
  constructor
  · intro h
    obtain ⟨j, hjlt, hpop⟩ := h ⟨1, by simp [mainChainStages]⟩ rfl
    simp [populatesTenantId] at hpop
  · intro budget allowResult reg next
    rfl

/-! ## Panic containment in the composed chain -/

/-- The result of running a (partially composed) handler: a response, or
a panic propagating out of it. -/
inductive RunResult
  | responded (resp : HttpResponse)
  | panicked (msg : String)
  deriving DecidableEq, Repr

/-- A non-recovering middleware stage with fault injection: when the
injected fault is at this stage, the stage panics and its inner handler
never runs; otherwise the inner result passes through unchanged, since
the stage does not recover. -/
def passStage (fault : Option Stage) (s : Stage) (inner : RunResult) :
    RunResult :=
  if fault = some s then RunResult.panicked "middleware panic" else inner

/-- RecoveryMiddleware (recovery.go lines 10-26): recover any panic from
the inner handler, log it, and answer 500 with a constant generic JSON
body; never re-raise. -/
def recoveryMiddleware (inner : RunResult) : RunResult :=
  match inner with
  | RunResult.panicked _ =>
      RunResult.responded ⟨500, "\x7b\"error\":\"Internal server error\"\x7d"⟩
  | RunResult.responded r => RunResult.responded r

/-- The composed handler of cmd/main.go lines 70-82; handlerResult is
what the dispatched route handler produces (it may itself panic). -/
def mainPipeline (fault : Option Stage) (handlerResult : RunResult) :
    RunResult :=
  passStage fault Stage.cors
    (passStage fault Stage.rateLimit
      (passStage fault Stage.etagStage
        (passStage fault Stage.metricsStage
          (passStage fault Stage.logging
            (recoveryMiddleware
              (passStage fault Stage.routeDispatch handlerResult))))))

/-- C8 counterexample: panic containment is not the outermost stage — a
panic raised in the logging stage (an inner middleware stage outside
RecoveryMiddleware, which only wraps the mux) is not recovered and
propagates to the server. -/
theorem middleware_panic_not_recovered :
    mainPipeline (some Stage.logging) (RunResult.responded ⟨200, "ok"⟩) =
      RunResult.panicked "middleware panic" := rfl

/-- C8 amended: panic containment is the innermost stage, wrapping only
route dispatch: a panic from the dispatched route handler is recovered
and answered 500 with a constant generic body independent of the panic
message, and is never re-raised; a fault-free run passes the handler
response through; but a panic raised in any of the other middleware
stages propagates out of the chain unrecovered. -/
theorem recovery_wraps_only_route_dispatch (msg : String)
    (resp : HttpResponse) :
    mainPipeline none (RunResult.panicked msg) =
      RunResult.responded
        ⟨500, "\x7b\"error\":\"Internal server error\"\x7d"⟩ ∧
    mainPipeline (some Stage.routeDispatch) (RunResult.responded resp) =
      RunResult.responded
        ⟨500, "\x7b\"error\":\"Internal server error\"\x7d"⟩ ∧
    mainPipeline none (RunResult.responded resp) =
      RunResult.responded resp ∧
    (∀ s : Stage, s ≠ Stage.routeDispatch → s ≠ Stage.recovery →
      mainPipeline (some s) (RunResult.responded resp) =
        RunResult.panicked "middleware panic") := by
  refine ⟨rfl, rfl, rfl, ?_⟩
  intro s h1 h2
  cases s
  case cors => rfl
  case rateLimit => rfl
  case etagStage => rfl
  case metricsStage => rfl
  case logging => rfl
  case recovery => exact absurd rfl h2
  case routeDispatch => exact absurd rfl h1

/-- C8 witness: the amended theorem applied at a concrete panic message
and response, with the inner-stage quantifier discharged at the ETag
stage. -/
theorem recovery_wraps_only_route_dispatch_witness :
    (Stage.etagStage ≠ Stage.routeDispatch ∧
     Stage.etagStage ≠ Stage.recovery) ∧
    mainPipeline (some Stage.etagStage) (RunResult.responded ⟨200, "ok"⟩) =
      RunResult.panicked "middleware panic" :=
  ⟨⟨by decide, by decide⟩,
   (recovery_wraps_only_route_dispatch "boom" ⟨200, "ok"⟩).2.2.2
     Stage.etagStage (by decide) (by decide)⟩

end CarFlow
